import Mathlib

/-!
Shallow embedding of the wz-rust node-tree abstraction layer.

The repository wraps an external native WZ-archive parser.  The native
layer itself is out of scope (it is a C library consumed through FFI
entry points), so it is modelled here as an abstract environment
`NativeEnv`: one field per native entry point, each an arbitrary but
fixed function from node handles to results.  Pointers are modelled as
natural numbers with `0` playing the role of the null pointer, exactly
as the Rust code tests pointers against null (`NonNull::new`,
`is_null`).  Status codes returned through C `int` are modelled as
`Int` so that every possible status (0, 1, 2, negative, ...) is
representable.  The two float accessors pass the natively written
value through unchanged, so the value is modelled as an opaque `Int`
bit-pattern stand-in; the wrapper code never inspects it.

The repository contains several historical iterations of the same
design; each is embedded separately and named after its file:
  - `wz*` definitions translate `src/wz.rs` (WzNode / WzCtx / WzNodeIter),
  - `L.*` definitions translate `src/lib.rs` (the `*mut wznode` impl);
    `src/libwz.rs` repeats these functions verbatim,
  - `nIter*` definitions translate `src/node.rs` (the generic `Node<T>`
    iterator),
  - `OptNode.*` and `LOpt.*` translate the `Option`-lifted trait impls
    of `src/wz.rs` and `src/lib.rs`.

Rust functions that can panic (`unwrap` / `expect` on `CString::new`)
are embedded with the result type `PRes`, whose `crash` constructor
marks the panic.
-/

namespace Wz

/-- Native pointers are natural numbers; `0` is the null pointer. -/
abbrev Ptr := Nat

/-- Result of a Rust computation that may panic: `crash` models a panic
(`unwrap`/`expect` failure), `ok` a normal return. -/
inductive PRes (α : Type) where
  | crash : PRes α
  | ok (a : α) : PRes α
deriving DecidableEq

/-- Result of a native call returning a C string pointer: the pointer can
be null, point at bytes that are not valid UTF-8 (so that
`CStr::to_str` fails), or point at a valid UTF-8 string. -/
inductive CStrRes where
  | nullPtr : CStrRes
  | invalidUtf8 : CStrRes
  | valid (s : String) : CStrRes
deriving DecidableEq

/-- What `wz_get_img` exposes on success: width, height, depth and scale
as written through the out parameters, and the native-owned pixel
memory as a byte function. -/
structure ImgData where
  w : Nat
  h : Nat
  depth : Nat
  scale : Nat
  mem : Nat → Nat

/-- Native calls recorded by the traced embedding of `WzNode::child_at`. -/
inductive NCall where
  | openNodeAt (p : Ptr) (i : Nat) : NCall
  | getName (p : Ptr) : NCall
deriving DecidableEq

/-- Abstract model of the native layer: one field per FFI entry point the
wrapper calls.  Out-parameter functions return the pair
(status code, value left in the out parameter). -/
structure NativeEnv where
  getType : Ptr → Nat
  getLen : Ptr → Int × Nat
  openNodeAt : Ptr → Nat → Ptr
  openNode : Ptr → String → Ptr
  openFile : String → Ptr
  getInt : Ptr → Int × Int
  getI64 : Ptr → Int × Int
  getF32 : Ptr → Int × Int
  getF64 : Ptr → Int × Int
  getStr : Ptr → CStrRes
  getName : Ptr → CStrRes
  getVexLen : Ptr → Int × Nat
  getVec : Ptr → Int × (Int × Int)
  getImg : Ptr → Option ImgData

/-- The 14 node kinds of `node.rs` (`Dtype`); `lib.rs` repeats the same
enum verbatim under the name `Type`. -/
inductive Dtype where
  | NIL | I16 | I32 | I64 | F32 | F64 | VEC | UNK | ARY | IMG | VEX | AO | UOL | STR
deriving DecidableEq

/-- The numeric discriminant of each `Dtype` variant (`repr(u16)` values
0 through 13 in the source). -/
def Dtype.toNat : Dtype → Nat
  | .NIL => 0
  | .I16 => 1
  | .I32 => 2
  | .I64 => 3
  | .F32 => 4
  | .F64 => 5
  | .VEC => 6
  | .UNK => 7
  | .ARY => 8
  | .IMG => 9
  | .VEX => 10
  | .AO => 11
  | .UOL => 12
  | .STR => 13

/-- The derived `FromPrimitive::from_u8` conversion on `Dtype`: the
discriminants 0..13 map to their variant, everything else to `None`. -/
def Dtype.fromNat : Nat → Option Dtype
  | 0 => some .NIL
  | 1 => some .I16
  | 2 => some .I32
  | 3 => some .I64
  | 4 => some .F32
  | 5 => some .F64
  | 6 => some .VEC
  | 7 => some .UNK
  | 8 => some .ARY
  | 9 => some .IMG
  | 10 => some .VEX
  | 11 => some .AO
  | 12 => some .UOL
  | 13 => some .STR
  | _ => none

/-- `CString::new` fails exactly when the byte representation contains an
interior NUL; in UTF-8 the byte 0 occurs exactly for the character
U+0000, so the check is membership of that character. -/
def hasNul (s : String) : Bool := s.data.contains (Char.ofNat 0)

/-- Wrap-around of unsigned 32-bit arithmetic (`as u32` on a wider value,
or u32 multiplication overflow in release builds). -/
def u32wrap (n : Nat) : Nat := n % 4294967296

/-- The Rust cast `x as u32` for an `i32` value `x`. -/
def u32ofI32 (x : Int) : Nat := (x % (4294967296 : Int)).toNat

/-- The Rust cast `n as i32` for a `u32` value `n`. -/
def i32ofU32 (n : Nat) : Int :=
  if n % 4294967296 < 2147483648 then (n % 4294967296 : Nat)
  else (n % 4294967296 : Nat) - (4294967296 : Int)

/-! ### src/wz.rs: WzNode and its MapleNode impl -/

/-- `WzNode` of `src/wz.rs`: a non-null node pointer plus the wrapper-kept
diagnostic path. -/
structure WzNode where
  ptr : Ptr
  path : Option String
deriving DecidableEq

/-- `WzNode::len` (`src/wz.rs`): `wz_get_len` out-value when the status is
0, and 0 for any other status. -/
def wzLen (env : NativeEnv) (n : WzNode) : Nat :=
  let r := env.getLen n.ptr
  if r.1 = 0 then r.2 else 0

/-- `WzNode::dtype` (`src/wz.rs`): `Ok(FromPrimitive::from_u8(wz_get_type(..)))`. -/
def wzDtype (env : NativeEnv) (n : WzNode) : Except String (Option Dtype) :=
  .ok (Dtype.fromNat (env.getType n.ptr))

/-- `WzNode::int32` (`src/wz.rs`): bails when `wz_get_int` returns
status 1, otherwise returns `Ok(Some(val))` with the out-value. -/
def wzInt32 (env : NativeEnv) (n : WzNode) : Except String (Option Int) :=
  let r := env.getInt n.ptr
  if r.1 = 1 then .error "get int32 error" else .ok (some r.2)

/-- `WzNode::int64` (`src/wz.rs`). -/
def wzInt64 (env : NativeEnv) (n : WzNode) : Except String (Option Int) :=
  let r := env.getI64 n.ptr
  if r.1 = 1 then .error "get int64 error" else .ok (some r.2)

/-- `WzNode::float32` (`src/wz.rs`); the float value is the opaque native
bit pattern, passed through unchanged. -/
def wzFloat32 (env : NativeEnv) (n : WzNode) : Except String (Option Int) :=
  let r := env.getF32 n.ptr
  if r.1 = 1 then .error "get float32 error" else .ok (some r.2)

/-- `WzNode::float64` (`src/wz.rs`). -/
def wzFloat64 (env : NativeEnv) (n : WzNode) : Except String (Option Int) :=
  let r := env.getF64 n.ptr
  if r.1 = 1 then .error "get float64 error" else .ok (some r.2)

/-- `WzNode::str` (`src/wz.rs`): errors on a null pointer and on invalid
UTF-8 (the `?` on `CStr::to_str`). -/
def wzStr (env : NativeEnv) (n : WzNode) : Except String (Option String) :=
  match env.getStr n.ptr with
  | .nullPtr => .error "get string error"
  | .invalidUtf8 => .error "Utf8Error"
  | .valid s => .ok (some s)

/-- `WzNode::name` (`src/wz.rs`): same structure as `str` on `wz_get_name`. -/
def wzName (env : NativeEnv) (n : WzNode) : Except String (Option String) :=
  match env.getName n.ptr with
  | .nullPtr => .error "get string error"
  | .invalidUtf8 => .error "Utf8Error"
  | .valid s => .ok (some s)

/-- `WzNode::vex_len` (`src/wz.rs`): bails when `wz_get_vex_len` returns
status 1, otherwise `Ok(len)` with the out-value. -/
def wzVexLen (env : NativeEnv) (n : WzNode) : Except String Nat :=
  let r := env.getVexLen n.ptr
  if r.1 = 1 then .error "vec() failed" else .ok r.2

/-- `WzNode::vec` (`src/wz.rs`): bails when `wz_get_vec` returns status 1,
otherwise `Ok(Some((x, y)))`. -/
def wzVec (env : NativeEnv) (n : WzNode) : Except String (Option (Int × Int)) :=
  let r := env.getVec n.ptr
  if r.1 = 1 then .error "vec() failed" else .ok (some r.2)

/-- The decoded image held by the wrapper: width, height and the owned
BGRA8 byte buffer. -/
structure WzImage where
  width : Nat
  height : Nat
  buf : List Nat
deriving DecidableEq

/-- Models `ImageBuffer::from_raw` of the external image crate, as
documented: it returns `Some` exactly when the supplied container holds
at least `width * height * 4` bytes (4 channels for BGRA8), keeping the
whole container as the buffer, and `None` otherwise. -/
def imageBufferFromRaw (w h : Nat) (buf : List Nat) : Option WzImage :=
  if w * h * 4 ≤ buf.length then some ⟨w, h, buf⟩ else none

/-- `WzNode::img` (`src/wz.rs`): errors on a null pixel pointer; otherwise
copies `(w * h * 4) as usize` bytes (u32 arithmetic, wrapping) out of
the native memory into an owned buffer and builds the image with
`ImageBuffer::from_raw`. -/
def wzImg (env : NativeEnv) (n : WzNode) : Except String (Option WzImage) :=
  match env.getImg n.ptr with
  | none => .error "img() failed"
  | some d =>
      let len := u32wrap (d.w * d.h * 4)
      let dst := (List.range len).map d.mem
      .ok (imageBufferFromRaw d.w d.h dst)

/-- `WzNode::child` (`src/wz.rs`): concatenates the diagnostic path,
panics on `CString::new(path).unwrap()` when the path holds an interior
NUL, then maps the native `wz_open_node` result (null becomes `None`). -/
def wzChild (env : NativeEnv) (n : WzNode) (path : String) : PRes (Option WzNode) :=
  let selfPath := n.path.getD ""
  let childPath := selfPath ++ "/" ++ path
  if hasNul path then .crash
  else
    let node := env.openNode n.ptr path
    .ok (if node = 0 then none else some ⟨node, some childPath⟩)

/-- `WzNode::child_at` (`src/wz.rs`), instrumented with the list of native
calls it performs: one `wz_open_node_at`, and on success one further
`wz_get_name` (through `name()` on the fresh child) used to extend the
diagnostic path, with the empty name as the fallback when the name
cannot be decoded. -/
def wzChildAt (env : NativeEnv) (n : WzNode) (i : Nat) : Option WzNode × List NCall :=
  let selfPath := n.path.getD ""
  let p := env.openNodeAt n.ptr i
  if p = 0 then (none, [NCall.openNodeAt n.ptr i])
  else
    let nodeName := match wzName env ⟨p, some ""⟩ with
      | .ok (some s) => s
      | _ => ""
    (some ⟨p, some (selfPath ++ "/" ++ nodeName)⟩, [NCall.openNodeAt n.ptr i, NCall.getName p])

/-- The value component of `WzNode::child_at`. -/
def wzChildV (env : NativeEnv) (n : WzNode) (i : Nat) : Option WzNode :=
  (wzChildAt env n i).1

/-- The child-name fallback used by `WzNode::child_at`: the decoded name
when the native bytes decode, the empty string otherwise (null pointer
or invalid UTF-8). -/
def nameFallback : CStrRes → String
  | .valid s => s
  | _ => ""

/-- `WzCtx::open_file` (`src/wz.rs`): `CString::new(path)?` turns an
interior NUL into a returned error; a null file pointer becomes
`Ok(None)`. -/
def wzCtxOpenFile (env : NativeEnv) (path : String) : Except String (Option Ptr) :=
  if hasNul path then .error "NulError"
  else
    let f := env.openFile path
    .ok (if f = 0 then none else some f)

/-- `WzNodeIter` of `src/wz.rs`: the borrowed base node and the next index. -/
structure WzNodeIter where
  base : WzNode
  index : Nat
deriving DecidableEq

/-- `Iterator::next` for `WzNodeIter` (`src/wz.rs`): ends once the index
reaches `len()` (re-read on every call), otherwise yields
`child_at(index)` and increments the index. -/
def wzIterNext (env : NativeEnv) (it : WzNodeIter) : Option WzNode × WzNodeIter :=
  if it.index ≥ wzLen env it.base then (none, it)
  else
    let c := wzChildV env it.base it.index
    (c, { it with index := it.index + 1 })

/-! ### src/lib.rs: the MapleNode impl for a raw node pointer
(src/libwz.rs repeats these functions verbatim) -/

namespace L

/-- `open_node` for `*mut wznode` (`src/lib.rs`): panics on
`CString::new(path).unwrap()` for an interior NUL; a null result
becomes `None`. -/
def openNode (env : NativeEnv) (p : Ptr) (path : String) : PRes (Option Ptr) :=
  if hasNul path then .crash
  else
    let node := env.openNode p path
    .ok (if node = 0 then none else some node)

/-- `open_node_at` for `*mut wznode` (`src/lib.rs`): null becomes `None`. -/
def openNodeAt (env : NativeEnv) (p : Ptr) (i : Nat) : Option Ptr :=
  let node := env.openNodeAt p i
  if node = 0 then none else some node

/-- `get_len` for `*mut wznode` (`src/lib.rs`): 0 for any non-zero status,
otherwise the out-value. -/
def getLen (env : NativeEnv) (p : Ptr) : Nat :=
  let r := env.getLen p
  if r.1 ≠ 0 then 0 else r.2

/-- `get_type` for `*mut wznode` (`src/lib.rs`); `lib.rs`'s `Type` enum
repeats `node.rs`'s `Dtype` verbatim, so `Dtype` is reused here. -/
def getType (env : NativeEnv) (p : Ptr) : Option Dtype :=
  Dtype.fromNat (env.getType p)

/-- `get_i32` for `*mut wznode` (`src/lib.rs`): `Some(val)` exactly for
status 0, `None` for every other status. -/
def getI32 (env : NativeEnv) (p : Ptr) : Option Int :=
  let r := env.getInt p
  if r.1 = 0 then some r.2 else none

/-- `get_i64` for `*mut wznode` (`src/lib.rs`). -/
def getI64 (env : NativeEnv) (p : Ptr) : Option Int :=
  let r := env.getI64 p
  if r.1 = 0 then some r.2 else none

/-- `get_f32` for `*mut wznode` (`src/lib.rs`). -/
def getF32 (env : NativeEnv) (p : Ptr) : Option Int :=
  let r := env.getF32 p
  if r.1 = 0 then some r.2 else none

/-- `get_f64` for `*mut wznode` (`src/lib.rs`). -/
def getF64 (env : NativeEnv) (p : Ptr) : Option Int :=
  let r := env.getF64 p
  if r.1 = 0 then some r.2 else none

/-- `get_str` for `*mut wznode` (`src/lib.rs`): `None` on a null pointer
or invalid UTF-8. -/
def getStr (env : NativeEnv) (p : Ptr) : Option String :=
  match env.getStr p with
  | .valid s => some s
  | _ => none

/-- `get_node_name` for `*mut wznode` (`src/lib.rs`). -/
def getNodeName (env : NativeEnv) (p : Ptr) : Option String :=
  match env.getName p with
  | .valid s => some s
  | _ => none

/-- `get_vex_len` for `*mut wznode` (`src/lib.rs` and, verbatim,
`src/libwz.rs`): the out-value for status 0, and 0 for every other
status. -/
def getVexLen (env : NativeEnv) (p : Ptr) : Nat :=
  let r := env.getVexLen p
  if r.1 = 0 then r.2 else 0

/-- `get_vec` for `*mut wznode` (`src/lib.rs`). -/
def getVec (env : NativeEnv) (p : Ptr) : Option (Int × Int) :=
  let r := env.getVec p
  if r.1 = 0 then some r.2 else none

/-- `get_img` for `*mut wznode` (`src/libwz.rs`): same body as
`WzNode::img` but returning an `Option` instead of a `Result`. -/
def getImg (env : NativeEnv) (p : Ptr) : Option WzImage :=
  match env.getImg p with
  | none => none
  | some d =>
      let len := u32wrap (d.w * d.h * 4)
      let dst := (List.range len).map d.mem
      imageBufferFromRaw d.w d.h dst

end L

/-- The `Node<T>` iterator state of `src/lib.rs`: the node handle and the
remaining count (an `i32`, snapshotted from `get_len() as i32` at
construction). -/
structure LIter where
  data : Ptr
  count : Int
deriving DecidableEq

/-- `Iterator::next` for `src/lib.rs`'s `Node<T>`: a zero count ends the
iteration; otherwise the count is decremented first and
`open_node_at(count as u32)` is yielded, so children are produced in
descending index order. -/
def lIterNext (env : NativeEnv) (it : LIter) : Option Ptr × LIter :=
  if it.count = 0 then (none, it)
  else
    let c := it.count - 1
    (L.openNodeAt env it.data (u32ofI32 c), { it with data := it.data, count := c })

/-- `iter` for `*mut wznode` (`src/lib.rs`): a non-null pointer snapshots
`get_len() as i32` as the count, a null pointer yields the empty
iterator. -/
def lIter (env : NativeEnv) (p : Ptr) : LIter :=
  if p ≠ 0 then { data := p, count := i32ofU32 (L.getLen env p) }
  else { data := 0, count := 0 }

/-! ### src/node.rs: the generic Node iterator -/

/-- The slice of the `MapleNode` trait interface that `node.rs`'s generic
`Node<T>` iterator consumes from its element type: `len` and
`child_at`. -/
structure MapleOps (α : Type) where
  len : α → Nat
  childAt : α → Nat → Option α

/-- `Node<T>` of `src/node.rs`: optional payload and the current index. -/
structure NodeIt (α : Type) where
  data : Option α
  index : Nat

/-- `Iterator::next` for `src/node.rs`'s `Node<T>`: with no payload the
iteration is empty; otherwise it ends once `index` reaches `len()`,
and otherwise increments `index` first and then yields
`child_at(self.index)` — i.e. `child_at(old index + 1)`. -/
def nIterNext {α : Type} (ops : MapleOps α) (it : NodeIt α) : Option α × NodeIt α :=
  match it.data with
  | none => (none, it)
  | some d =>
      if it.index ≥ ops.len d then (none, it)
      else
        let it2 : NodeIt α := { it with index := it.index + 1 }
        (ops.childAt d it2.index, it2)

/-- The `MapleOps` instance `node.rs`'s iterator is used with: the raw
node-pointer impl of `src/libwz.rs` / `src/lib.rs`. -/
def nodeOps (env : NativeEnv) : MapleOps Ptr :=
  ⟨L.getLen env, L.openNodeAt env⟩

/-- Drives a Rust `Iterator` the way `collect` / `count` do: repeatedly
call `step` and gather the yielded elements, stopping at the first
`None` (or when the fuel runs out; every theorem below supplies enough
fuel for the run to have ended on its own). -/
def runIter {σ α : Type} (step : σ → Option α × σ) : Nat → σ → List α
  | 0, _ => []
  | Nat.succ fuel, st =>
      match step st with
      | (none, _) => []
      | (some a, st2) => a :: runIter step fuel st2

/-! ### The Option-lifted impls -/

/-! `impl MapleNode for Option<Box<T>>` of `src/wz.rs`, instantiated at
`WzNode` (its only instantiation): every operation on `None` is the
absent result, computed without consulting the native layer. -/
namespace OptNode

/-- `Option<Box<WzNode>>::child` (`src/wz.rs`). -/
def child (env : NativeEnv) (o : Option WzNode) (path : String) : PRes (Option WzNode) :=
  match o with
  | some n => wzChild env n path
  | none => .ok none

/-- `Option<Box<WzNode>>::child_at` (`src/wz.rs`). -/
def childAt (env : NativeEnv) (o : Option WzNode) (i : Nat) : Option WzNode :=
  match o with
  | some n => wzChildV env n i
  | none => none

/-- `Option<Box<WzNode>>::len` (`src/wz.rs`). -/
def len (env : NativeEnv) (o : Option WzNode) : Nat :=
  match o with
  | some n => wzLen env n
  | none => 0

/-- `Option<Box<WzNode>>::dtype` (`src/wz.rs`). -/
def dtype (env : NativeEnv) (o : Option WzNode) : Except String (Option Dtype) :=
  match o with
  | some n => wzDtype env n
  | none => .ok none

/-- `Option<Box<WzNode>>::int32` (`src/wz.rs`). -/
def int32 (env : NativeEnv) (o : Option WzNode) : Except String (Option Int) :=
  match o with
  | some n => wzInt32 env n
  | none => .ok none

/-- `Option<Box<WzNode>>::int64` (`src/wz.rs`). -/
def int64 (env : NativeEnv) (o : Option WzNode) : Except String (Option Int) :=
  match o with
  | some n => wzInt64 env n
  | none => .ok none

/-- `Option<Box<WzNode>>::float32` (`src/wz.rs`). -/
def float32 (env : NativeEnv) (o : Option WzNode) : Except String (Option Int) :=
  match o with
  | some n => wzFloat32 env n
  | none => .ok none

/-- `Option<Box<WzNode>>::float64` (`src/wz.rs`). -/
def float64 (env : NativeEnv) (o : Option WzNode) : Except String (Option Int) :=
  match o with
  | some n => wzFloat64 env n
  | none => .ok none

/-- `Option<Box<WzNode>>::str` (`src/wz.rs`). -/
def str (env : NativeEnv) (o : Option WzNode) : Except String (Option String) :=
  match o with
  | some n => wzStr env n
  | none => .ok none

/-- `Option<Box<WzNode>>::name` (`src/wz.rs`). -/
def name (env : NativeEnv) (o : Option WzNode) : Except String (Option String) :=
  match o with
  | some n => wzName env n
  | none => .ok none

/-- `Option<Box<WzNode>>::vex_len` (`src/wz.rs`). -/
def vexLen (env : NativeEnv) (o : Option WzNode) : Except String Nat :=
  match o with
  | some n => wzVexLen env n
  | none => .ok 0

/-- `Option<Box<WzNode>>::vec` (`src/wz.rs`). -/
def vec (env : NativeEnv) (o : Option WzNode) : Except String (Option (Int × Int)) :=
  match o with
  | some n => wzVec env n
  | none => .ok none

/-- `Option<Box<WzNode>>::img` (`src/wz.rs`). -/
def img (env : NativeEnv) (o : Option WzNode) : Except String (Option WzImage) :=
  match o with
  | some n => wzImg env n
  | none => .ok none

end OptNode

/-! `impl MapleNode for Option<*mut wznode>` of `src/lib.rs`. -/
namespace LOpt

/-- `Option<*mut wznode>::open_node` (`src/lib.rs`). -/
def openNode (env : NativeEnv) (o : Option Ptr) (path : String) : PRes (Option Ptr) :=
  match o with
  | some p => L.openNode env p path
  | none => .ok none

/-- `Option<*mut wznode>::open_node_at` (`src/lib.rs`). -/
def openNodeAt (env : NativeEnv) (o : Option Ptr) (i : Nat) : Option Ptr :=
  match o with
  | some p => L.openNodeAt env p i
  | none => none

/-- `Option<*mut wznode>::get_len` (`src/lib.rs`). -/
def getLen (env : NativeEnv) (o : Option Ptr) : Nat :=
  match o with
  | some p => L.getLen env p
  | none => 0

/-- `Option<*mut wznode>::get_type` (`src/lib.rs`). -/
def getType (env : NativeEnv) (o : Option Ptr) : Option Dtype :=
  match o with
  | some p => L.getType env p
  | none => none

/-- `Option<*mut wznode>::get_i32` (`src/lib.rs`). -/
def getI32 (env : NativeEnv) (o : Option Ptr) : Option Int :=
  match o with
  | some p => L.getI32 env p
  | none => none

/-- `Option<*mut wznode>::get_i64` (`src/lib.rs`). -/
def getI64 (env : NativeEnv) (o : Option Ptr) : Option Int :=
  match o with
  | some p => L.getI64 env p
  | none => none

/-- `Option<*mut wznode>::get_f32` (`src/lib.rs`). -/
def getF32 (env : NativeEnv) (o : Option Ptr) : Option Int :=
  match o with
  | some p => L.getF32 env p
  | none => none

/-- `Option<*mut wznode>::get_f64` (`src/lib.rs`). -/
def getF64 (env : NativeEnv) (o : Option Ptr) : Option Int :=
  match o with
  | some p => L.getF64 env p
  | none => none

/-- `Option<*mut wznode>::get_str` (`src/lib.rs`). -/
def getStr (env : NativeEnv) (o : Option Ptr) : Option String :=
  match o with
  | some p => L.getStr env p
  | none => none

/-- `Option<*mut wznode>::get_node_name` (`src/lib.rs`). -/
def getNodeName (env : NativeEnv) (o : Option Ptr) : Option String :=
  match o with
  | some p => L.getNodeName env p
  | none => none

/-- `Option<*mut wznode>::get_vex_len` (`src/lib.rs`). -/
def getVexLen (env : NativeEnv) (o : Option Ptr) : Nat :=
  match o with
  | some p => L.getVexLen env p
  | none => 0

/-- `Option<*mut wznode>::get_vec` (`src/lib.rs`). -/
def getVec (env : NativeEnv) (o : Option Ptr) : Option (Int × Int) :=
  match o with
  | some p => L.getVec env p
  | none => none

/-- `Option<*mut wznode>::iter` (`src/lib.rs`): `None` becomes the empty
iterator over the null pointer. -/
def iter (env : NativeEnv) (o : Option Ptr) : LIter :=
  match o with
  | some p => lIter env p
  | none => { data := 0, count := 0 }

end LOpt

/-- `open_file` of `src/lib.rs`: `CString::new(..).expect("path")` panics
on an interior NUL (`src/libwz.rs`'s `open_file` has the same
`expect`); a null file pointer becomes `None`. -/
def libOpenFile (env : NativeEnv) (path : String) : PRes (Option Ptr) :=
  if hasNul path then .crash
  else
    let f := env.openFile path
    .ok (if f = 0 then none else some f)

/-! ### Concrete native environments used by counterexamples and witnesses -/

/-- A concrete native layer: every node reports tag 8 (ARY) and two
children, and the child of node `p` at index `i` is the non-null
handle `10 + i`.  Names, strings and scalars are absent or zero. -/
def envA : NativeEnv where
  getType := fun _ => 8
  getLen := fun _ => (0, 2)
  openNodeAt := fun _ i => 10 + i
  openNode := fun _ _ => 0
  openFile := fun _ => 0
  getInt := fun _ => (0, 0)
  getI64 := fun _ => (0, 0)
  getF32 := fun _ => (0, 0)
  getF64 := fun _ => (0, 0)
  getStr := fun _ => .nullPtr
  getName := fun _ => .nullPtr
  getVexLen := fun _ => (0, 0)
  getVec := fun _ => (0, (0, 0))
  getImg := fun _ => none

/-- A native layer with one ARY node of length 1 whose only child lives at
index 0 (handle 2); every other index has no child. -/
def envB : NativeEnv :=
  { envA with getLen := fun _ => (0, 1), openNodeAt := fun _ i => if i = 0 then 2 else 0 }

/-- A native layer whose scalar reads all fail with status 2 (a non-zero
status other than 1), leaving the value 7 in the out parameter. -/
def envStatus2 : NativeEnv :=
  { envA with
      getInt := fun _ => (2, 7)
      getI64 := fun _ => (2, 7)
      getF32 := fun _ => (2, 7)
      getF64 := fun _ => (2, 7)
      getVexLen := fun _ => (2, 7)
      getVec := fun _ => (2, (7, 7)) }

/-- A native layer whose `wz_get_vex_len` fails with status 1. -/
def envVex1 : NativeEnv :=
  { envA with getVexLen := fun _ => (1, 7) }

/-- A native layer where the child of any node at index `i` is handle
`10 + i` and the name of handle 11 decodes to "abc". -/
def envNamed : NativeEnv :=
  { envA with getName := fun p => if p = 11 then .valid "abc" else .nullPtr }

/-- A native layer exposing one 2-by-3 image whose byte at offset `k`
is `k`. -/
def envImg : NativeEnv :=
  { envA with getImg := fun _ => some ⟨2, 3, 16, 0, fun k => k⟩ }

/-! ### General iterator runs -/

/-- Running `WzNodeIter` from index `j` with `k = len - j` indices left,
when every in-range `child_at` succeeds, yields exactly the children at
`j, j+1, ..., len-1`, in ascending index order. -/
theorem wzIter_run (env : NativeEnv) (b : WzNode) :
    ∀ k j fuel, j + k = wzLen env b → k ≤ fuel →
    (∀ i, j ≤ i → i < wzLen env b → (wzChildV env b i).isSome) →
    runIter (wzIterNext env) fuel ⟨b, j⟩ =
      (List.range' j k).map (fun i => (wzChildV env b i).getD ⟨0, none⟩) := by
  intro k
  induction k with
  | zero =>
      intro j fuel hj _ _
      cases fuel with
      | zero => simp [runIter]
      | succ m =>
          have hge : j ≥ wzLen env b := by omega
          simp [runIter, wzIterNext, hge]
  | succ k ih =>
      intro j fuel hj hf h
      cases fuel with
      | zero => omega
      | succ m =>
          have hlt : j < wzLen env b := by omega
          have hsome := h j (Nat.le_refl j) hlt
          obtain ⟨c, hc⟩ := Option.isSome_iff_exists.mp hsome
          have hnext : wzIterNext env ⟨b, j⟩ = (some c, ⟨b, j + 1⟩) := by
            simp [wzIterNext, Nat.not_le.mpr hlt, hc]
          rw [List.range'_succ]
          simp only [runIter, hnext, List.map_cons]
          rw [ih (j + 1) m (by omega) (by omega)
            (fun i hi1 hi2 => h i (by omega) hi2), hc]
          rfl

/-- Running `src/lib.rs`'s iterator with a non-negative count `k` (below
the i32 bound), when every `open_node_at` below `k` succeeds, yields
the children at `k-1, k-2, ..., 0`, in descending index order. -/
theorem lIter_run (env : NativeEnv) (p : Ptr) :
    ∀ k fuel, k < 2147483648 → k ≤ fuel →
    (∀ i, i < k → (L.openNodeAt env p i).isSome) →
    runIter (lIterNext env) fuel ⟨p, (k : Int)⟩ =
      (List.range k).reverse.map (fun i => (L.openNodeAt env p i).getD 0) := by
  intro k
  induction k with
  | zero =>
      intro fuel _ _ _
      cases fuel with
      | zero => simp [runIter]
      | succ m => simp [runIter, lIterNext]
  | succ k ih =>
      intro fuel hk hf h
      cases fuel with
      | zero => omega
      | succ m =>
          have hsome := h k (Nat.lt_succ_self k)
          obtain ⟨c, hc⟩ := Option.isSome_iff_exists.mp hsome
          have hcast : u32ofI32 ((k : Nat) : Int) = k := by
            unfold u32ofI32; omega
          have hz : ¬ (((k + 1 : Nat) : Int) = 0) := by omega
          have hnext : lIterNext env ⟨p, ((k + 1 : Nat) : Int)⟩ = (some c, ⟨p, (k : Int)⟩) := by
            have hsub : ((k + 1 : Nat) : Int) - 1 = (k : Int) := by push_cast; ring
            simp only [lIterNext, if_neg hz, hsub, hcast, hc]
          rw [List.range_succ, List.reverse_append]
          simp only [runIter, hnext, List.reverse_cons, List.reverse_nil,
            List.nil_append, List.singleton_append, List.map_cons]
          rw [ih m (by omega) (by omega) (fun i hi => h i (by omega)), hc]
          rfl

/-! ### Claim theorems -/

/-- C1 (code bug): on a node of tag ARY with `len() = 1` whose only child
lives at index 0, the `node.rs` iterator yields no element at all
instead of one: `next` increments the index before calling `child_at`,
so it probes `child_at(1), ..., child_at(len)` and skips child 0,
yielding `len - 1` elements instead of `len`. -/
theorem c1_node_iter_undercounts :
    L.getType envB 1 = some Dtype.ARY
  ∧ L.getLen envB 1 = 1
  ∧ (L.openNodeAt envB 1 0).isSome
  ∧ runIter (nIterNext (nodeOps envB)) 2 ⟨some 1, 0⟩ = [] := by decide

/-- C2 (counterexample): on a node with two children, handle 10 at index
0 and handle 11 at index 1, the `src/lib.rs` iterator produces
`[11, 10]` — its first element is the child at index 1, not the child
at index 0, so iteration is not in ascending index order. -/
theorem c2_lib_iter_descending_cex :
    L.openNodeAt envA 1 0 = some 10
  ∧ L.openNodeAt envA 1 1 = some 11
  ∧ runIter (lIterNext envA) 2 (lIter envA 1) = [11, 10] := by decide

/-- C2 (amended): when every in-range `child_at` succeeds, the `src/wz.rs`
iterator (`WzNodeIter`) yields the children in ascending index order
(the i-th element is `child_at(i)`), while the `src/lib.rs` iterator
yields the same children in descending index order. -/
theorem c2_iter_order_amended (env : NativeEnv) (b : WzNode) (p : Ptr)
    (hb : ∀ i, i < wzLen env b → (wzChildV env b i).isSome)
    (hp0 : p ≠ 0) (hlen : L.getLen env p < 2147483648)
    (hp : ∀ i, i < L.getLen env p → (L.openNodeAt env p i).isSome) :
    runIter (wzIterNext env) (wzLen env b) ⟨b, 0⟩ =
      (List.range (wzLen env b)).map (fun i => (wzChildV env b i).getD ⟨0, none⟩)
  ∧ runIter (lIterNext env) (L.getLen env p) (lIter env p) =
      (List.range (L.getLen env p)).reverse.map (fun i => (L.openNodeAt env p i).getD 0) := by
  constructor
  · rw [List.range_eq_range']
    exact wzIter_run env b (wzLen env b) 0 (wzLen env b) (by omega) (Nat.le_refl _)
      (fun i _ hi2 => hb i hi2)
  · have hcount : i32ofU32 (L.getLen env p) = ((L.getLen env p : Nat) : Int) := by
      unfold i32ofU32
      rw [if_pos (by omega : L.getLen env p % 4294967296 < 2147483648)]
      omega
    have hiter : lIter env p = ⟨p, ((L.getLen env p : Nat) : Int)⟩ := by
      unfold lIter
      rw [if_pos hp0, hcount]
    rw [hiter]
    exact lIter_run env p (L.getLen env p) (L.getLen env p) hlen (Nat.le_refl _) hp

/-- Witness for C2 (amended), at the concrete native layer `envA` with a
two-child node. -/
theorem c2_iter_order_amended_witness :
    (∀ i, i < wzLen envA ⟨1, some ""⟩ → (wzChildV envA ⟨1, some ""⟩ i).isSome)
  ∧ (∀ i, i < L.getLen envA 1 → (L.openNodeAt envA 1 i).isSome)
  ∧ (runIter (wzIterNext envA) (wzLen envA ⟨1, some ""⟩) ⟨⟨1, some ""⟩, 0⟩ =
      (List.range (wzLen envA ⟨1, some ""⟩)).map
        (fun i => (wzChildV envA ⟨1, some ""⟩ i).getD ⟨0, none⟩)
    ∧ runIter (lIterNext envA) (L.getLen envA 1) (lIter envA 1) =
      (List.range (L.getLen envA 1)).reverse.map
        (fun i => (L.openNodeAt envA 1 i).getD 0)) :=
  ⟨by decide, by decide,
    c2_iter_order_amended envA ⟨1, some ""⟩ 1 (by decide) (by decide) (by decide) (by decide)⟩

/-- C3 (counterexample): a path string containing an embedded NUL byte
makes `WzNode::child` panic (`CString::new(path).unwrap()`), so `child`
does not return `Some`/`None` for every path string. -/
theorem c3_child_nul_crash_cex :
    wzChild envA ⟨1, some ""⟩ "\x00" = PRes.crash := by decide

/-- C3 (amended): for every path string without an embedded NUL byte,
`WzNode::child` returns normally with `Some`/`None` (never panics),
and returns `None` exactly when the native multi-segment lookup fails
(in particular when any segment does not exist); the successful child
carries the diagnostic path `self.path + "/" + path`. -/
theorem c3_child_total_amended (env : NativeEnv) (n : WzNode) (path : String)
    (h : hasNul path = false) :
    ∃ r, wzChild env n path = PRes.ok r
      ∧ (env.openNode n.ptr path = 0 → r = none)
      ∧ (env.openNode n.ptr path ≠ 0 →
          r = some ⟨env.openNode n.ptr path, some (n.path.getD "" ++ "/" ++ path)⟩) := by
  refine ⟨if env.openNode n.ptr path = 0 then none
    else some ⟨env.openNode n.ptr path, some (n.path.getD "" ++ "/" ++ path)⟩, ?_, ?_, ?_⟩
  · simp [wzChild, h]
  · intro h0; rw [if_pos h0]
  · intro h0; rw [if_neg h0]

/-- Witness for C3 (amended), at the concrete native layer `envA` with the
NUL-free path "a/b". -/
theorem c3_child_total_amended_witness :
    hasNul "a/b" = false
  ∧ (∃ r, wzChild envA ⟨1, some ""⟩ "a/b" = PRes.ok r
      ∧ (envA.openNode 1 "a/b" = 0 → r = none)
      ∧ (envA.openNode 1 "a/b" ≠ 0 →
          r = some ⟨envA.openNode 1 "a/b", some ("" ++ "/" ++ "a/b")⟩)) :=
  ⟨by decide, c3_child_total_amended envA ⟨1, some ""⟩ "a/b" (by decide)⟩

/-- C4 (counterexample): when the native scalar read fails with status 2
(non-zero, but different from 1), `WzNode::int32` of `src/wz.rs` does
not report an error: it returns `Ok(Some(out-value))`, because its check
is `ret == 1` rather than `ret != 0`. -/
theorem c4_wz_int32_status2_cex :
    (envStatus2.getInt 1).1 ≠ 0 ∧ wzInt32 envStatus2 ⟨1, none⟩ = Except.ok (some 7) := by
  exact ⟨by decide, rfl⟩

/-- C4 (amended): the `src/lib.rs` accessors succeed exactly on native
status 0 and return `None` for every non-zero status; the `src/wz.rs`
accessors instead fail only on status exactly 1, and return
`Ok(Some(out-value))` for every other status, including non-zero ones. -/
theorem c4_scalar_status_amended (env : NativeEnv) (p : Ptr) (n : WzNode) :
    (L.getI32 env p = if (env.getInt p).1 = 0 then some (env.getInt p).2 else none)
  ∧ (L.getI64 env p = if (env.getI64 p).1 = 0 then some (env.getI64 p).2 else none)
  ∧ (L.getF32 env p = if (env.getF32 p).1 = 0 then some (env.getF32 p).2 else none)
  ∧ (L.getF64 env p = if (env.getF64 p).1 = 0 then some (env.getF64 p).2 else none)
  ∧ (L.getVec env p = if (env.getVec p).1 = 0 then some (env.getVec p).2 else none)
  ∧ (wzInt32 env n = if (env.getInt n.ptr).1 = 1 then Except.error "get int32 error"
      else Except.ok (some (env.getInt n.ptr).2))
  ∧ (wzInt64 env n = if (env.getI64 n.ptr).1 = 1 then Except.error "get int64 error"
      else Except.ok (some (env.getI64 n.ptr).2))
  ∧ (wzFloat32 env n = if (env.getF32 n.ptr).1 = 1 then Except.error "get float32 error"
      else Except.ok (some (env.getF32 n.ptr).2))
  ∧ (wzFloat64 env n = if (env.getF64 n.ptr).1 = 1 then Except.error "get float64 error"
      else Except.ok (some (env.getF64 n.ptr).2))
  ∧ (wzVec env n = if (env.getVec n.ptr).1 = 1 then Except.error "vec() failed"
      else Except.ok (some (env.getVec n.ptr).2)) :=
  ⟨rfl, rfl, rfl, rfl, rfl, rfl, rfl, rfl, rfl, rfl⟩

/-- C5 (counterexample): when `wz_get_vex_len` fails with status 1,
`WzNode::vex_len` of `src/wz.rs` does not degrade to 0: it returns a
fatal `Err`. -/
theorem c5_wz_vex_len_status1_cex :
    (envVex1.getVexLen 1).1 ≠ 0 ∧ wzVexLen envVex1 ⟨1, none⟩ = Except.error "vec() failed" := by
  exact ⟨by decide, rfl⟩

/-- C5 (amended): `get_vex_len` of `src/lib.rs` / `src/libwz.rs` returns
the native count for status 0 and degrades to 0 for every non-zero
status; `WzNode::vex_len` of `src/wz.rs` instead returns an error for
status 1 and `Ok(out-value)` for every other status. -/
theorem c5_vex_len_amended (env : NativeEnv) (p : Ptr) (n : WzNode) :
    (L.getVexLen env p = if (env.getVexLen p).1 = 0 then (env.getVexLen p).2 else 0)
  ∧ (wzVexLen env n = if (env.getVexLen n.ptr).1 = 1 then Except.error "vec() failed"
      else Except.ok (env.getVexLen n.ptr).2) :=
  ⟨rfl, rfl⟩

/-- C6 (counterexample): `open_file` of `src/lib.rs` panics
(`CString::new(..).expect("path")`) on a path containing an embedded
NUL byte, instead of returning a failure value. -/
theorem c6_lib_open_file_nul_cex :
    libOpenFile envA "\x00" = PRes.crash := by decide

/-- C6 (amended): on a path with an embedded NUL byte,
`WzCtx::open_file` of `src/wz.rs` returns an error without panicking,
while `open_file` of `src/lib.rs` (and `src/libwz.rs`) panics. -/
theorem c6_open_file_nul_amended (env : NativeEnv) (path : String)
    (h : hasNul path = true) :
    wzCtxOpenFile env path = Except.error "NulError" ∧ libOpenFile env path = PRes.crash := by
  constructor <;> simp [wzCtxOpenFile, libOpenFile, h]

/-- Witness for C6 (amended), at the path consisting of one NUL byte. -/
theorem c6_open_file_nul_amended_witness :
    hasNul "\x00" = true
  ∧ (wzCtxOpenFile envA "\x00" = Except.error "NulError"
    ∧ libOpenFile envA "\x00" = PRes.crash) :=
  ⟨by decide, c6_open_file_nul_amended envA "\x00" (by decide)⟩

/-- C7: whenever `WzNode::child_at(i)` succeeds, it performs exactly one
further native call (`wz_get_name` on the fresh child) after the
`wz_open_node_at` call, and the returned child's diagnostic path is
`self.path + "/" + child_name`, with the empty string standing in for
a name that cannot be decoded. -/
theorem c7_child_at_path (env : NativeEnv) (n : WzNode) (i : Nat) (c : WzNode)
    (h : (wzChildAt env n i).1 = some c) :
    (wzChildAt env n i).2 = [NCall.openNodeAt n.ptr i, NCall.getName c.ptr]
  ∧ c.path = some (n.path.getD "" ++ "/" ++ nameFallback (env.getName c.ptr)) := by
  have hname : ∀ q : Ptr,
      (match wzName env ⟨q, some ""⟩ with
        | Except.ok (some s) => s
        | _ => "") = nameFallback (env.getName q) := by
    intro q
    unfold wzName nameFallback
    cases env.getName q <;> rfl
  by_cases hp : env.openNodeAt n.ptr i = 0
  · exfalso
    simp [wzChildAt, hp] at h
  · have hc : some (⟨env.openNodeAt n.ptr i,
        some (n.path.getD "" ++ "/" ++
          (match wzName env ⟨env.openNodeAt n.ptr i, some ""⟩ with
            | Except.ok (some s) => s
            | _ => ""))⟩ : WzNode) = some c := by
      rw [← h]
      simp [wzChildAt, hp]
    obtain rfl := Option.some.inj hc
    refine ⟨?_, ?_⟩
    · simp [wzChildAt, hp]
    · simp [hname]

/-- Witness for C7, at the concrete native layer `envNamed` where the
child of node 1 at index 1 is handle 11, whose name decodes to "abc". -/
theorem c7_child_at_path_witness :
    (wzChildAt envNamed ⟨1, some "root"⟩ 1).1 = some ⟨11, some "root/abc"⟩
  ∧ ((wzChildAt envNamed ⟨1, some "root"⟩ 1).2 =
        [NCall.openNodeAt 1 1, NCall.getName 11]
    ∧ (some "root/abc" : Option String) =
        some ("root" ++ "/" ++ nameFallback (envNamed.getName 11))) :=
  ⟨by decide, c7_child_at_path envNamed ⟨1, some "root"⟩ 1 ⟨11, some "root/abc"⟩ (by decide)⟩

/-- C8: `WzNode::dtype` is the total derived numeric conversion: each of
the 14 discriminants 0..13 round-trips to its `Dtype` variant, and
every numeric tag of 14 or above maps to `None` (no panic on
unrecognized tags). -/
theorem c8_dtype_total (env : NativeEnv) (n : WzNode) (v : Nat) (hv : 14 ≤ v) :
    wzDtype env n = Except.ok (Dtype.fromNat (env.getType n.ptr))
  ∧ (∀ d : Dtype, Dtype.fromNat d.toNat = some d)
  ∧ Dtype.fromNat v = none := by
  refine ⟨rfl, ?_, ?_⟩
  · intro d
    cases d <;> rfl
  · obtain ⟨w, rfl⟩ : ∃ w, v = w + 14 := ⟨v - 14, by omega⟩
    rfl

/-- Witness for C8, at the unrecognized tag value 200. -/
theorem c8_dtype_total_witness :
    (14 ≤ 200)
  ∧ (wzDtype envA ⟨1, none⟩ = Except.ok (Dtype.fromNat (envA.getType 1))
    ∧ (∀ d : Dtype, Dtype.fromNat d.toNat = some d)
    ∧ Dtype.fromNat 200 = none) :=
  ⟨by decide, c8_dtype_total envA ⟨1, none⟩ 200 (by decide)⟩

/-- C9: whenever `WzNode::img` succeeds, the returned image's owned buffer
holds exactly `width * height * 4` bytes, and those bytes are the copy
of the first `w*h*4` bytes of the native-owned pixel memory. -/
theorem c9_img_buffer_len (env : NativeEnv) (n : WzNode) (d : ImgData) (im : WzImage)
    (hd : env.getImg n.ptr = some d) (h : wzImg env n = Except.ok (some im)) :
    im.width = d.w ∧ im.height = d.h
  ∧ im.buf.length = im.width * im.height * 4
  ∧ im.buf = (List.range (d.w * d.h * 4)).map d.mem := by
  unfold wzImg at h
  rw [hd] at h
  simp only [imageBufferFromRaw] at h
  by_cases hle : d.w * d.h * 4 ≤ ((List.range (u32wrap (d.w * d.h * 4))).map d.mem).length
  · rw [if_pos hle] at h
    have him : (⟨d.w, d.h, (List.range (u32wrap (d.w * d.h * 4))).map d.mem⟩ : WzImage) = im := by
      have := h
      injection this with h1
      exact Option.some.inj h1
    obtain rfl := him
    have heq : u32wrap (d.w * d.h * 4) = d.w * d.h * 4 := by
      have h1 : u32wrap (d.w * d.h * 4) ≤ d.w * d.h * 4 := Nat.mod_le _ _
      simp only [List.length_map, List.length_range] at hle
      omega
    refine ⟨rfl, rfl, ?_, ?_⟩
    · simp [heq]
    · simp [heq]
  · rw [if_neg hle] at h
    exact absurd h (by simp)

/-- Witness for C9, at the concrete native layer `envImg` exposing a
2-by-3 image whose byte at offset k is k. -/
theorem c9_img_buffer_len_witness :
    envImg.getImg 1 = some ⟨2, 3, 16, 0, fun k => k⟩
  ∧ wzImg envImg ⟨1, none⟩ =
      Except.ok (some ⟨2, 3, (List.range 24).map (fun k => k)⟩)
  ∧ ((2 : Nat) = 2 ∧ (3 : Nat) = 3
    ∧ ((List.range 24).map (fun k : Nat => k)).length = 2 * 3 * 4
    ∧ (List.range 24).map (fun k : Nat => k) = (List.range (2 * 3 * 4)).map (fun k : Nat => k)) :=
  ⟨rfl, rfl,
    c9_img_buffer_len envImg ⟨1, none⟩ ⟨2, 3, 16, 0, fun k => k⟩
      ⟨2, 3, (List.range 24).map (fun k => k)⟩ rfl rfl⟩

/-- C10: every operation of both Option-lifted impls maps the absent node
to the absent result — `None`, `Ok(None)`, 0, or the empty iterator —
uniformly in the native layer (the same result for every `env`, i.e.
without any native call). -/
theorem c10_option_lifting (env : NativeEnv) (path : String) (i fuel : Nat) :
    OptNode.child env none path = PRes.ok none
  ∧ OptNode.childAt env none i = none
  ∧ OptNode.len env none = 0
  ∧ OptNode.dtype env none = Except.ok none
  ∧ OptNode.int32 env none = Except.ok none
  ∧ OptNode.int64 env none = Except.ok none
  ∧ OptNode.float32 env none = Except.ok none
  ∧ OptNode.float64 env none = Except.ok none
  ∧ OptNode.str env none = Except.ok none
  ∧ OptNode.name env none = Except.ok none
  ∧ OptNode.vexLen env none = Except.ok 0
  ∧ OptNode.vec env none = Except.ok none
  ∧ OptNode.img env none = Except.ok none
  ∧ LOpt.openNode env none path = PRes.ok none
  ∧ LOpt.openNodeAt env none i = none
  ∧ LOpt.getLen env none = 0
  ∧ LOpt.getType env none = none
  ∧ LOpt.getI32 env none = none
  ∧ LOpt.getI64 env none = none
  ∧ LOpt.getF32 env none = none
  ∧ LOpt.getF64 env none = none
  ∧ LOpt.getStr env none = none
  ∧ LOpt.getNodeName env none = none
  ∧ LOpt.getVexLen env none = 0
  ∧ LOpt.getVec env none = none
  ∧ runIter (lIterNext env) fuel (LOpt.iter env none) = []
  ∧ runIter (nIterNext (nodeOps env)) fuel ⟨none, 0⟩ = [] := by
  refine ⟨rfl, rfl, rfl, rfl, rfl, rfl, rfl, rfl, rfl, rfl, rfl, rfl, rfl, rfl, rfl,
    rfl, rfl, rfl, rfl, rfl, rfl, rfl, rfl, rfl, rfl, ?_, ?_⟩
  · cases fuel with
    | zero => rfl
    | succ m => rfl
  · cases fuel with
    | zero => rfl
    | succ m => rfl

end Wz

